import Mathlib

/-
Verification of the MDQ scoring / classification / trend-analysis engine.

The repository carries two near-duplicate analysis modules:
  * the standard binary MDQ module (analyse.py, class MDQAnalyzer):
    answers score 0/1, total 0..13, result decided by a decision tree;
  * the legacy five-level module (analyse copy.py, class MDQAnalyzer):
    answers score 0..4, total 0..52, severity decided by a threshold
    table plus an additive boost.

All definitions below are direct shallow embeddings of the Python source.
Machine floats are modelled by exact rationals; Python `round(x, n)` is
modelled by round-half-to-even on rationals (the two agree everywhere a
claim is evaluated, since no claim touches a decimal tie).  An answer set
is modelled as a function from the 13 fixed question ids to an optional
answer label (`none` = the key is absent from the `questions` dict).
-/

namespace MentalAbby

/-- Severity levels of the binary (standard MDQ) module, `SeverityLevel`
in analyse.py. -/
inductive BSeverity
  | negative
  | mild_positive
  | moderate_positive
  | high_positive
  deriving DecidableEq, Repr

/-- Severity levels of the five-level (legacy) module, `SeverityLevel`
in analyse copy.py. -/
inductive FSeverity
  | normal
  | mild_risk
  | moderate_risk
  | high_risk
  | severe_risk
  deriving DecidableEq, Repr

/-- The 7-value `ImprovementTrend` enum (identical in both modules). -/
inductive ImprovementTrend
  | significant_improvement
  | moderate_improvement
  | mild_improvement
  | stable
  | mild_deterioration
  | moderate_deterioration
  | significant_deterioration
  deriving DecidableEq, Repr

/-- Round-half-to-even to an integer, the rounding used by Python `round`. -/
def roundHalfEven (q : ℚ) : ℤ :=
  if q - ⌊q⌋ < 1/2 then ⌊q⌋
  else if 1/2 < q - ⌊q⌋ then ⌊q⌋ + 1
  else if 2 ∣ ⌊q⌋ then ⌊q⌋ else ⌊q⌋ + 1

/-- Python `round(x, 1)` on exact rationals. -/
def pyRound1 (q : ℚ) : ℚ := (roundHalfEven (10 * q) : ℚ) / 10

/-- Python `round(x, 2)` on exact rationals. -/
def pyRound2 (q : ℚ) : ℚ := (roundHalfEven (100 * q) : ℚ) / 100

/-! ## Binary (standard MDQ) module: scoring and classification -/

/-- Per-question score of the binary module (analyse.py,
`_analyze_mdq_standard`): the answer defaults to "no" when the question
is absent, and only the exact label "no" scores 0 - every other label
scores 1. -/
def binaryScore (ans : Option String) : ℕ :=
  match ans with
  | none => 0
  | some a => if a = "no" then 0 else 1

/-- `part1_score` of analyse.py: sum of the binary per-question scores
over the 13 fixed question ids q1..q13. -/
def part1Score (answers : Fin 13 → Option String) : ℕ :=
  ((List.finRange 13).map (fun i => binaryScore (answers i))).sum

/-- `functional_impact_mapping` of analyse.py, applied with dict-get
default "no_problems". -/
def functional_impact_mapping (s : String) : String :=
  if s = "no" then "no_problems"
  else if s = "minor" then "minor_problems"
  else if s = "moderate" then "moderate_problems"
  else if s = "serious" then "serious_problems"
  else "no_problems"

/-- `_determine_mdq_result` of analyse.py (screening cutoff 7). -/
def determine_mdq_result (part1 : ℕ) (hasCo : Bool) (fil : String) : String :=
  if part1 < 7 then "negative"
  else if hasCo = false then "negative"
  else if fil = "no_problems" then "positive_subclinical"
  else if fil = "serious_problems" then "positive_high"
  else if fil = "moderate_problems" then "positive_moderate"
  else "positive_mild"

/-- `_determine_severity_level` of analyse.py. -/
def determine_severity_level (part1 : ℕ) (hasCo : Bool) (fil : String)
    (res : String) : BSeverity :=
  if res = "negative" then .negative
  else if res = "positive_mild" ∨ res = "positive_subclinical" then .mild_positive
  else if res = "positive_moderate" then .moderate_positive
  else if res = "positive_high" then .high_positive
  else if 10 ≤ part1 then .high_positive
  else if 8 ≤ part1 then .moderate_positive
  else .mild_positive

/-- `_calculate_risk_percentage` of analyse.py (binary module). -/
def calculate_risk_percentage_b (part1 : ℕ) (hasCo : Bool) (fil : String) : ℚ :=
  let score_risk : ℚ := min ((part1 : ℚ) / 13 * 60) 60
  let co_occurrence_risk : ℚ := if hasCo then 20 else 0
  let functional_risk : ℚ :=
    if fil = "no_problems" then 0
    else if fil = "minor_problems" then 5
    else if fil = "moderate_problems" then 15
    else if fil = "serious_problems" then 25
    else 0
  let total_risk := score_risk + co_occurrence_risk + functional_risk
  let total_risk :=
    if 9 ≤ part1 ∧ hasCo = true ∧ fil ≠ "no_problems" then total_risk + 15
    else total_risk
  pyRound1 (min 100 (max 0 total_risk))

/-! ## Five-level (legacy) module: scoring and classification -/

/-- `score_mapping` of analyse copy.py, applied with dict-get default 0:
no=0, rarely=1, sometimes=2, often=3, always=4, anything else 0. -/
def scoreMapping (a : String) : ℕ :=
  if a = "no" then 0
  else if a = "rarely" then 1
  else if a = "sometimes" then 2
  else if a = "often" then 3
  else if a = "always" then 4
  else 0

/-- Per-question contribution to `raw_score` in `_analyze_current_state`
of analyse copy.py: a question absent from the `questions` dict is not
iterated over and contributes nothing; a present answer contributes
`score_mapping.get(answer, 0)`. -/
def fiveScore (ans : Option String) : ℕ :=
  match ans with
  | none => 0
  | some a => scoreMapping a

/-- `raw_score` of `_analyze_current_state` (analyse copy.py), for an
answer set whose keys range over the 13 fixed question ids. -/
def rawScoreF (answers : Fin 13 → Option String) : ℕ :=
  ((List.finRange 13).map (fun i => fiveScore (answers i))).sum

/-- `severity_thresholds` of analyse copy.py, in dict insertion order:
each entry is (level, (min_score, max_score)). -/
def severity_thresholds : List (FSeverity × ℕ × ℕ) :=
  [(.normal, 0, 12),
   (.mild_risk, 13, 25),
   (.moderate_risk, 26, 39),
   (.high_risk, 16, 39),
   (.severe_risk, 40, 52)]

/-- The base-level loop of `_calculate_severity_level` (analyse copy.py):
`base_level` starts at NORMAL and the loop breaks at the first entry of
`severity_thresholds` whose range contains the raw score. -/
def baseLevel (raw : ℕ) : FSeverity :=
  match severity_thresholds.find? (fun e => decide (e.2.1 ≤ raw ∧ raw ≤ e.2.2)) with
  | some e => e.1
  | none => .normal

/-- The four bipolar-indicator group flags computed by
`_analyze_current_state` (keys of `bipolar_indicators`); the dict stores
1 for positive and 0 for negative, modelled as Bool. -/
structure Indicators where
  core_manic : Bool
  behavioral : Bool
  social_impact : Bool
  cognitive : Bool
  deriving DecidableEq, Repr

/-- `sum(bipolar_indicators.values())`: the number of positive groups. -/
def Indicators.count (ind : Indicators) : ℕ :=
  (if ind.core_manic then 1 else 0) + (if ind.behavioral then 1 else 0)
  + (if ind.social_impact then 1 else 0) + (if ind.cognitive then 1 else 0)

/-- Pointwise order on indicator flag sets: every group positive on the
left is positive on the right. -/
def Indicators.le (i j : Indicators) : Prop :=
  i.core_manic ≤ j.core_manic ∧ i.behavioral ≤ j.behavioral
  ∧ i.social_impact ≤ j.social_impact ∧ i.cognitive ≤ j.cognitive

instance : DecidablePred (fun p : Indicators × Indicators => p.1.le p.2) :=
  fun _ => by unfold Indicators.le; infer_instance

/-- The `severity_boost` accumulation of `_calculate_severity_level`
(analyse copy.py): +2/+1 by positive-indicator count, +2/+1 by the raw
`severity` answer (functional impact), +1 for co-occurrence, +1 when
both high-risk groups (core manic, behavioral) are positive. -/
def severity_boost (ind : Indicators) (sev : String) (co : Bool) : ℕ :=
  (if 3 ≤ ind.count then 2 else if 2 ≤ ind.count then 1 else 0)
  + (if sev = "serious" then 2 else if sev = "moderate" then 1 else 0)
  + (if co then 1 else 0)
  + (if 2 ≤ ((if ind.core_manic then 1 else 0) + (if ind.behavioral then 1 else 0) : ℕ)
     then 1 else 0)

/-- `list(SeverityLevel)` in enum declaration order. -/
def severityLevels : List FSeverity :=
  [.normal, .mild_risk, .moderate_risk, .high_risk, .severe_risk]

/-- Position of a level in `severityLevels` (the `.index` call). -/
def FSeverity.idx : FSeverity → ℕ
  | .normal => 0
  | .mild_risk => 1
  | .moderate_risk => 2
  | .high_risk => 3
  | .severe_risk => 4

/-- `_calculate_severity_level` of analyse copy.py: base level from the
threshold table, then `severity_levels[min(len - 1, base_index + boost)]`.
The co-occurrence and severity answers of `test_data` are passed as
`co : Bool` (whether the answer equals "yes") and `sev : String`. -/
def calculate_severity_level (raw : ℕ) (ind : Indicators) (sev : String)
    (co : Bool) : FSeverity :=
  let base := baseLevel raw
  let adjusted := min (severityLevels.length - 1) (base.idx + severity_boost ind sev co)
  severityLevels.getD adjusted .normal

/-- `_calculate_risk_percentage` of analyse copy.py.  `weighted` is the
`weighted_score` computed by the caller; `max(symptom_weights.values())`
is 2.0 (the weight of q12). -/
def calculate_risk_percentage_f (raw : ℕ) (weighted : ℚ) (ind : Indicators)
    (co : Bool) (sev : String) : ℚ :=
  let base_risk : ℚ := min 100 ((raw : ℚ) / 39 * 100)
  let max_weighted_score : ℚ := 39 * 2
  let weighted_adjustment : ℚ := weighted / max_weighted_score * 100
  let clinical_adjustments : ℚ :=
    (if co then 15 else 0)
    + (if sev = "serious" then 25 else if sev = "moderate" then 15
       else if sev = "minor" then 5 else 0)
    + (ind.count : ℚ) * 8
  pyRound1 (min 100 (max 0 (base_risk * 0.4 + weighted_adjustment * 0.4
    + clinical_adjustments * 0.2)))

/-! ## Trend analysis (the 3-or-more-point path of
`_calculate_improvement_trend` in each module)

The score series is ordered oldest first (both callers reverse the
newest-first history before calling).  `np.polyfit` and `np.corrcoef`
never raise on such input; on a constant series `np.corrcoef` returns
NaN (zero variance) with a warning instead of raising, so the `except`
fallback of the source is unreachable and the computed trend depends
only on the percent change below. -/

/-- Percent change of the binary module (analyse.py, lines 505-506):
`(scores[0] - scores[-1]) / max(scores[0], 1) * 100 if scores[0] > 0
else 0`.  Note the divisor and the guard use the OLDEST score. -/
def change_pct_b (scores : List ℤ) : ℚ :=
  let first := scores.headI
  let lastv := scores.getLastD 0
  if 0 < first then ((first - lastv : ℤ) : ℚ) / ((max first 1 : ℤ) : ℚ) * 100 else 0

/-- Percent change of the five-level module (analyse copy.py, lines
613-614): `(scores[0] - scores[-1]) / max(scores[-1], 1) * 100 if
scores[-1] > 0 else 0`.  Note the divisor and the guard use the NEWEST
score. -/
def change_pct_f (scores : List ℤ) : ℚ :=
  let first := scores.headI
  let lastv := scores.getLastD 0
  if 0 < lastv then ((first - lastv : ℤ) : ℚ) / ((max lastv 1 : ℤ) : ℚ) * 100 else 0

/-- Trend bucketing of the binary module (cutoffs 20/30/50). -/
def trend_bucket_b (p : ℚ) : ImprovementTrend :=
  if |p| < 20 then .stable
  else if 50 ≤ p then .significant_improvement
  else if 30 ≤ p then .moderate_improvement
  else if 20 ≤ p then .mild_improvement
  else if p ≤ -50 then .significant_deterioration
  else if p ≤ -30 then .moderate_deterioration
  else .mild_deterioration

/-- Trend bucketing of the five-level module (cutoffs 15/25/40). -/
def trend_bucket_f (p : ℚ) : ImprovementTrend :=
  if |p| < 15 then .stable
  else if 40 ≤ p then .significant_improvement
  else if 25 ≤ p then .moderate_improvement
  else if 15 ≤ p then .mild_improvement
  else if p ≤ -40 then .significant_deterioration
  else if p ≤ -25 then .moderate_deterioration
  else .mild_deterioration

/-- Trend returned by the binary module on a series of 3 or more points. -/
def trend_b (scores : List ℤ) : ImprovementTrend :=
  trend_bucket_b (change_pct_b scores)

/-- Trend returned by the five-level module on a series of 3 or more
points. -/
def trend_f (scores : List ℤ) : ImprovementTrend :=
  trend_bucket_f (change_pct_f scores)

/-- Numerator of the population variance of a score series (times the
squared length): `n * sum(x^2) - (sum x)^2`.  It is zero exactly when
the series is constant, which is exactly when `np.corrcoef(x, scores)`
divides by a zero standard deviation and yields NaN. -/
def varianceNum (l : List ℤ) : ℤ :=
  (l.length : ℤ) * (l.map (fun x => x * x)).sum - (l.sum) ^ 2

/-- Whether `np.corrcoef(x, scores)[0, 1]` is NaN: the index axis is
never constant for 2 or more points, so NaN happens exactly when the
score series has zero variance. -/
def corr_is_nan (scores : List ℤ) : Bool :=
  varianceNum scores == 0

/-- `confidence = min(0.95, correlation + 0.1)` of both modules, where
`correlation = abs(corrcoef)` is NaN iff `isNan`.  Python's two-argument
`min` keeps its first argument when the comparison with NaN is false, so
a NaN correlation yields exactly 0.95; otherwise `absr` stands for the
(irrational, here abstract) correlation magnitude. -/
def confidence_from (isNan : Bool) (absr : ℚ) : ℚ :=
  if isNan then 0.95 else min 0.95 (absr + 0.1)

/-- The reverse-sign mirror of a score series: the same start value with
every increment negated, i.e. pointwise `2 * scores[0] - x`. -/
def mirrorSeries (l : List ℤ) : List ℤ :=
  l.map (fun x => 2 * l.headI - x)

/-- The deterioration bucket corresponding to each improvement bucket
and vice versa. -/
def mirrorBucket : ImprovementTrend → ImprovementTrend
  | .significant_improvement => .significant_deterioration
  | .moderate_improvement => .moderate_deterioration
  | .mild_improvement => .mild_deterioration
  | .stable => .stable
  | .mild_deterioration => .mild_improvement
  | .moderate_deterioration => .moderate_improvement
  | .significant_deterioration => .significant_improvement

/-! ## Improvement-pattern analysis (`_analyze_improvement_patterns`,
identical structure in both modules)

The extracted score list is ordered NEWEST first here (the history is
not reversed in this function), so `scores[0]` is the latest score and
`max(scores)` ranges over all scores including the latest. -/

/-- `improvement_percentage`: `(max(scores) - scores[0]) / max(scores)
* 100 if max(scores) > 0 else 0`. -/
def improvement_percentage (scores : List ℤ) : ℚ :=
  let current := scores.headI
  let maxHistorical := scores.foldr max scores.headI
  if 0 < maxHistorical then
    ((maxHistorical - current : ℤ) : ℚ) / ((maxHistorical : ℤ) : ℚ) * 100
  else 0

/-- `np.mean` of a score series, as an exact rational. -/
def listMeanQ (l : List ℤ) : ℚ := (l.sum : ℚ) / (l.length : ℚ)

/-- Sum of squared deviations from the mean; `np.std` of the series is
the square root of `sumSqDev l / l.length`. -/
def sumSqDev (l : List ℤ) : ℚ :=
  (l.map (fun x : ℤ => ((x : ℚ) - listMeanQ l) ^ 2)).sum

/-- `consistency_score` of `_analyze_improvement_patterns` for a history
of 3 or more points: on `recent = scores[:min(5, len)]`,
`cv = std / mean if mean > 0 else 1` and
`consistency = max(0, min(1, 1 - cv / 2))`; with fewer points it is 0.5.
`std` is passed in and characterised in the theorems by
`std ^ 2 * recent.length = sumSqDev recent` with `0 ≤ std`, which pins
down `np.std(recent)` exactly whenever that value is rational. -/
def consistency_score (scores : List ℤ) (std : ℚ) : ℚ :=
  if 3 ≤ scores.length then
    let recent := scores.take 5
    let m := listMeanQ recent
    let cv := if 0 < m then std / m else 1
    max 0 (min 1 (1 - cv / 2))
  else 0.5

/-! ## Concrete inputs used by the scenario claims -/

/-- Scenario A answer set: q1..q7 answered "yes", q8..q13 answered "no". -/
def answersA : Fin 13 → Option String :=
  fun i => if i.val < 7 then some "yes" else some "no"

/-! ## Claim theorems -/

/-- C1: in the binary module the MDQ result follows the decision tree
(negative below the screening cutoff 7, negative without co-occurrence,
subclinical without functional impact, then mild / moderate / high by
functional-impact level), the severity level is the direct mapping of
the result with subclinical and mild both collapsing to MildPositive,
and Scenario A (q1..q7 "yes", q8..q13 "no", co-occurrence true,
functional impact "moderate") yields total 7, result
"positive_moderate" and severity ModeratePositive. -/
theorem c1_mdq_decision_tree :
    (∀ (s : ℕ) (co : Bool) (fil : String), s < 7 →
      determine_mdq_result s co fil = "negative") ∧
    (∀ (s : ℕ) (fil : String), 7 ≤ s →
      determine_mdq_result s false fil = "negative") ∧
    (∀ s : ℕ, 7 ≤ s →
      determine_mdq_result s true "no_problems" = "positive_subclinical") ∧
    (∀ s : ℕ, 7 ≤ s →
      determine_mdq_result s true "minor_problems" = "positive_mild") ∧
    (∀ s : ℕ, 7 ≤ s →
      determine_mdq_result s true "moderate_problems" = "positive_moderate") ∧
    (∀ s : ℕ, 7 ≤ s →
      determine_mdq_result s true "serious_problems" = "positive_high") ∧
    (∀ (s : ℕ) (co : Bool) (fil : String),
      determine_severity_level s co fil "negative" = BSeverity.negative) ∧
    (∀ (s : ℕ) (co : Bool) (fil : String),
      determine_severity_level s co fil "positive_subclinical" = BSeverity.mild_positive) ∧
    (∀ (s : ℕ) (co : Bool) (fil : String),
      determine_severity_level s co fil "positive_mild" = BSeverity.mild_positive) ∧
    (∀ (s : ℕ) (co : Bool) (fil : String),
      determine_severity_level s co fil "positive_moderate" = BSeverity.moderate_positive) ∧
    (∀ (s : ℕ) (co : Bool) (fil : String),
      determine_severity_level s co fil "positive_high" = BSeverity.high_positive) ∧
    part1Score answersA = 7 ∧
    functional_impact_mapping "moderate" = "moderate_problems" ∧
    determine_mdq_result (part1Score answersA) true
      (functional_impact_mapping "moderate") = "positive_moderate" ∧
    determine_severity_level (part1Score answersA) true
      (functional_impact_mapping "moderate") "positive_moderate"
      = BSeverity.moderate_positive := by
  refine ⟨?_, ?_, ?_, ?_, ?_, ?_, ?_, ?_, ?_, ?_, ?_, ?_, ?_, ?_, ?_⟩
  · intro s co fil h
    simp [determine_mdq_result, h]
  · intro s fil h
    simp [determine_mdq_result, Nat.not_lt.mpr h]
  · intro s h
    simp [determine_mdq_result, Nat.not_lt.mpr h]
  · intro s h
    simp [determine_mdq_result, Nat.not_lt.mpr h]
  · intro s h
    simp [determine_mdq_result, Nat.not_lt.mpr h]
  · intro s h
    simp [determine_mdq_result, Nat.not_lt.mpr h]
  · intro s co fil
    simp [determine_severity_level]
  · intro s co fil
    simp [determine_severity_level]
  · intro s co fil
    simp [determine_severity_level]
  · intro s co fil
    simp [determine_severity_level]
  · intro s co fil
    simp [determine_severity_level]
  · decide
  · decide
  · decide
  · decide

/-- Witness for C1 at concrete inputs. -/
theorem c1_mdq_decision_tree_witness :
    determine_mdq_result 3 true "no_problems" = "negative" :=
  c1_mdq_decision_tree.1 3 true "no_problems" (by decide)

/-- C3 counterexample: the threshold table of the five-level module is
NOT made of non-overlapping ranges - the score 20 lies inside the ranges
of both MILD_RISK (13, 25) and HIGH_RISK (16, 39), so there is no unique
range containing it. -/
theorem c3_counterexample :
    (severity_thresholds.filter
        (fun e => decide (e.2.1 ≤ 20 ∧ 20 ≤ e.2.2))).map Prod.fst
      = [FSeverity.mild_risk, FSeverity.high_risk] ∧
    FSeverity.mild_risk ≠ FSeverity.high_risk := by
  constructor
  · decide
  · decide

/-- C3 amended: the base level is the level of the FIRST matching range
in table order (which is well defined even though the ranges overlap);
in closed form it is NORMAL up to 12, MILD_RISK up to 25, MODERATE_RISK
up to 39, SEVERE_RISK up to 52 and NORMAL (the loop default) above 52,
and HIGH_RISK is never produced as a base level because its overlapping
range (16, 39) is shadowed by the earlier entries. -/
theorem c3_base_level_first_match :
    (∀ raw : ℕ, baseLevel raw =
      (if raw ≤ 12 then FSeverity.normal
       else if raw ≤ 25 then FSeverity.mild_risk
       else if raw ≤ 39 then FSeverity.moderate_risk
       else if raw ≤ 52 then FSeverity.severe_risk
       else FSeverity.normal)) ∧
    (∀ raw : ℕ, baseLevel raw ≠ FSeverity.high_risk) := by
  have h : ∀ raw : ℕ, baseLevel raw =
      (if raw ≤ 12 then FSeverity.normal
       else if raw ≤ 25 then FSeverity.mild_risk
       else if raw ≤ 39 then FSeverity.moderate_risk
       else if raw ≤ 52 then FSeverity.severe_risk
       else FSeverity.normal) := by
    intro raw
    unfold baseLevel
    by_cases h1 : raw ≤ 12
    · simp [severity_thresholds, List.find?, h1]
    · have h13 : 13 ≤ raw := by omega
      by_cases h2 : raw ≤ 25
      · simp [severity_thresholds, List.find?, h1, h2, h13]
      · have h26 : 26 ≤ raw := by omega
        by_cases h3 : raw ≤ 39
        · simp [severity_thresholds, List.find?, h1, h2, h3, h13, h26]
        · have h40 : 40 ≤ raw := by omega
          by_cases h4 : raw ≤ 52
          · simp [severity_thresholds, List.find?, h1, h2, h3, h4, h13, h26, h40]
          · simp [severity_thresholds, List.find?, h1, h2, h3, h4, h13, h26, h40]
  refine ⟨h, ?_⟩
  intro raw
  rw [h raw]
  split_ifs <;> simp

/-- Witness for C3 at the concrete overlapping score 20. -/
theorem c3_base_level_first_match_witness :
    baseLevel 20 = FSeverity.mild_risk := by
  have h := c3_base_level_first_match.1 20
  simpa using h

/-- C4 counterexample: in the binary module an unrecognized answer label
does NOT contribute 0 - any label other than exactly "no" scores 1, so a
single question answered "banana" gives total 1, not 0. -/
theorem c4_counterexample :
    binaryScore (some "banana") = 1 ∧
    part1Score (fun i => if i.val = 0 then some "banana" else none) = 1 ∧
    (1 : ℕ) ≠ 0 := by
  refine ⟨by decide, by decide, by decide⟩

/-- C4 amended: in the five-level module an unanswered question or an
unrecognized answer label contributes 0; in the binary module an
unanswered question contributes 0 (the lookup defaults to "no"), but any
present label other than exactly "no" - recognized or not - contributes
1.  Scoring is a total function of the answer mapping and never raises
(both embeddings are total Lean functions). -/
theorem c4_default_scoring :
    (∀ l : String, l ∉ ["no", "rarely", "sometimes", "often", "always"] →
      scoreMapping l = 0) ∧
    fiveScore none = 0 ∧
    binaryScore none = 0 ∧
    binaryScore (some "no") = 0 ∧
    (∀ l : String, l ≠ "no" → binaryScore (some l) = 1) := by
  refine ⟨?_, rfl, rfl, by decide, ?_⟩
  · intro l h
    unfold scoreMapping
    split_ifs with h1 h2 h3 h4 h5 <;> simp_all
  · intro l h
    simp [binaryScore, h]

/-- Witness for C4 at concrete inputs. -/
theorem c4_default_scoring_witness :
    "banana" ∉ ["no", "rarely", "sometimes", "often", "always"] ∧
    scoreMapping "banana" = 0 ∧ binaryScore (some "yes") = 1 :=
  ⟨by decide, c4_default_scoring.1 "banana" (by decide),
    c4_default_scoring.2.2.2.2 "yes" (by decide)⟩

/-- Nonnegative inputs round to nonnegative integers. -/
lemma roundHalfEven_nonneg (q : ℚ) (h : 0 ≤ q) : 0 ≤ roundHalfEven q := by
  unfold roundHalfEven
  have hf : (0 : ℤ) ≤ ⌊q⌋ := by
    rw [Int.le_floor]
    exact_mod_cast h
  split_ifs <;> omega

/-- Rounding never exceeds an integer upper bound of the input. -/
lemma roundHalfEven_le (q : ℚ) (n : ℤ) (h : q ≤ (n : ℚ)) : roundHalfEven q ≤ n := by
  unfold roundHalfEven
  have hfl : ⌊q⌋ ≤ n := by
    have := Int.floor_le_floor h
    simpa using this
  have hfq : (⌊q⌋ : ℚ) ≤ q := Int.floor_le q
  split_ifs with h1 h2 h3
  · exact hfl
  · have hq : (⌊q⌋ : ℚ) + 1/2 < q := by linarith
    have hlt : (⌊q⌋ : ℚ) < (n : ℚ) := by linarith
    have : ⌊q⌋ < n := by exact_mod_cast hlt
    omega
  · exact hfl
  · have hge : (1 : ℚ)/2 ≤ q - ⌊q⌋ := not_lt.mp h1
    have hlt : (⌊q⌋ : ℚ) < (n : ℚ) := by linarith
    have : ⌊q⌋ < n := by exact_mod_cast hlt
    omega

/-- A clamped-then-rounded risk value lies in the interval 0..100. -/
lemma pyRound1_clamp_bounds (x : ℚ) :
    0 ≤ pyRound1 (min 100 (max 0 x)) ∧ pyRound1 (min 100 (max 0 x)) ≤ 100 := by
  have hy0 : 0 ≤ min 100 (max 0 x) := le_min (by norm_num) (le_max_left 0 x)
  have hy1 : min 100 (max 0 x) ≤ 100 := min_le_left _ _
  unfold pyRound1
  constructor
  · have h0 : (0 : ℤ) ≤ roundHalfEven (10 * min 100 (max 0 x)) :=
      roundHalfEven_nonneg _ (by linarith)
    have h0q : (0 : ℚ) ≤ (roundHalfEven (10 * min 100 (max 0 x)) : ℚ) := by
      exact_mod_cast h0
    linarith
  · have h1 : roundHalfEven (10 * min 100 (max 0 x)) ≤ 1000 :=
      roundHalfEven_le _ 1000 (by push_cast; linarith)
    have h1q : (roundHalfEven (10 * min 100 (max 0 x)) : ℚ) ≤ 1000 := by
      exact_mod_cast h1
    linarith

/-- Every binary per-question score is at most 1. -/
lemma binaryScore_le_one (a : Option String) : binaryScore a ≤ 1 := by
  unfold binaryScore
  cases a
  · simp
  · dsimp only
    split_ifs <;> omega

/-- Every five-level per-question score is at most 4. -/
lemma fiveScore_le_four (a : Option String) : fiveScore a ≤ 4 := by
  unfold fiveScore scoreMapping
  cases a
  · simp
  · dsimp only
    split_ifs <;> omega

/-- C2: over every answer set (any mapping from the 13 question ids to
optional answer labels) the binary total is at most 13 and the
five-level raw total is at most 52 (both are sums of naturals, hence
also at least 0), and both risk computations return a value between 0
and 100 for all inputs, thanks to the final clamp and rounding. -/
theorem c2_score_and_risk_bounds :
    (∀ answers : Fin 13 → Option String, part1Score answers ≤ 13) ∧
    (∀ answers : Fin 13 → Option String, rawScoreF answers ≤ 52) ∧
    (∀ (p : ℕ) (co : Bool) (fil : String),
      0 ≤ calculate_risk_percentage_b p co fil ∧
      calculate_risk_percentage_b p co fil ≤ 100) ∧
    (∀ (raw : ℕ) (w : ℚ) (ind : Indicators) (co : Bool) (sev : String),
      0 ≤ calculate_risk_percentage_f raw w ind co sev ∧
      calculate_risk_percentage_f raw w ind co sev ≤ 100) := by
  refine ⟨?_, ?_, ?_, ?_⟩
  · intro answers
    unfold part1Score
    have h := List.sum_le_card_nsmul
      ((List.finRange 13).map (fun i => binaryScore (answers i))) 1 ?_
    · simpa using h
    · intro x hx
      obtain ⟨i, _, rfl⟩ := List.mem_map.mp hx
      exact binaryScore_le_one _
  · intro answers
    unfold rawScoreF
    have h := List.sum_le_card_nsmul
      ((List.finRange 13).map (fun i => fiveScore (answers i))) 4 ?_
    · simpa using h
    · intro x hx
      obtain ⟨i, _, rfl⟩ := List.mem_map.mp hx
      exact fiveScore_le_four _
  · intro p co fil
    exact pyRound1_clamp_bounds _
  · intro raw w ind co sev
    exact pyRound1_clamp_bounds _

/-- Every severity level sits at position at most 4 of the level list. -/
lemma idx_le_four (L : FSeverity) : L.idx ≤ 4 := by
  cases L <;> simp [FSeverity.idx]

/-- Indexing the level list at a clamped position recovers the position. -/
lemma severityLevels_getD_idx (n : ℕ) :
    (severityLevels.getD (min 4 n) FSeverity.normal).idx = min 4 n := by
  have h : min 4 n = 0 ∨ min 4 n = 1 ∨ min 4 n = 2 ∨ min 4 n = 3 ∨ min 4 n = 4 := by
    omega
  rcases h with h | h | h | h | h <;> rw [h] <;> rfl

/-- The indicator-dependent part of the boost (count boost plus
high-risk-group boost) is monotone in the four flags. -/
lemma boost_parts_mono : ∀ a b c d a' b' c' d' : Bool,
    a ≤ a' → b ≤ b' → c ≤ c' → d ≤ d' →
    ((if 3 ≤ ((if a then 1 else 0) + (if b then 1 else 0)
          + (if c then 1 else 0) + (if d then 1 else 0) : ℕ) then 2
      else if 2 ≤ ((if a then 1 else 0) + (if b then 1 else 0)
          + (if c then 1 else 0) + (if d then 1 else 0) : ℕ) then 1 else 0)
     + (if 2 ≤ ((if a then 1 else 0) + (if b then 1 else 0) : ℕ)
        then 1 else 0) : ℕ)
    ≤ ((if 3 ≤ ((if a' then 1 else 0) + (if b' then 1 else 0)
          + (if c' then 1 else 0) + (if d' then 1 else 0) : ℕ) then 2
      else if 2 ≤ ((if a' then 1 else 0) + (if b' then 1 else 0)
          + (if c' then 1 else 0) + (if d' then 1 else 0) : ℕ) then 1 else 0)
     + (if 2 ≤ ((if a' then 1 else 0) + (if b' then 1 else 0) : ℕ)
        then 1 else 0)) := by
  decide

/-- The boost is monotone under pointwise growth of the indicator flags
(for any fixed severity answer and co-occurrence flag). -/
lemma severity_boost_mono (sev : String) (co : Bool) (i i' : Indicators)
    (h : i.le i') : severity_boost i sev co ≤ severity_boost i' sev co := by
  obtain ⟨a, b, c, d⟩ := i
  obtain ⟨a', b', c', d'⟩ := i'
  obtain ⟨h1, h2, h3, h4⟩ := h
  have key := boost_parts_mono a b c d a' b' c' d' h1 h2 h3 h4
  unfold severity_boost Indicators.count
  dsimp only
  omega

/-- C8: in the five-level module the final severity level is
`levels[min(4, base_index + boost)]`, therefore it is never less severe
than the base level, its index never exceeds the most severe level, and
growing the set of positive bipolar indicators (total score, functional
impact and co-occurrence held fixed) never decreases the final level. -/
theorem c8_severity_boost_monotone :
    (∀ (raw : ℕ) (ind : Indicators) (sev : String) (co : Bool),
      (baseLevel raw).idx ≤ (calculate_severity_level raw ind sev co).idx) ∧
    (∀ (raw : ℕ) (ind : Indicators) (sev : String) (co : Bool),
      (calculate_severity_level raw ind sev co).idx ≤ 4) ∧
    (∀ (raw : ℕ) (sev : String) (co : Bool) (ind ind' : Indicators),
      ind.le ind' →
      (calculate_severity_level raw ind sev co).idx
        ≤ (calculate_severity_level raw ind' sev co).idx) := by
  have hcalc : ∀ (raw : ℕ) (ind : Indicators) (sev : String) (co : Bool),
      (calculate_severity_level raw ind sev co).idx
        = min 4 ((baseLevel raw).idx + severity_boost ind sev co) := by
    intro raw ind sev co
    unfold calculate_severity_level
    have hlen : severityLevels.length - 1 = 4 := by rfl
    rw [hlen]
    exact severityLevels_getD_idx _
  refine ⟨?_, ?_, ?_⟩
  · intro raw ind sev co
    rw [hcalc]
    have := idx_le_four (baseLevel raw)
    omega
  · intro raw ind sev co
    rw [hcalc]
    omega
  · intro raw sev co ind ind' hle
    rw [hcalc, hcalc]
    have := severity_boost_mono sev co ind ind' hle
    omega

/-- Witness for C8's monotonicity at a concrete indicator extension. -/
theorem c8_severity_boost_monotone_witness :
    (Indicators.mk true false false false).le (Indicators.mk true true false false) ∧
    (calculate_severity_level 20 (Indicators.mk true false false false) "moderate" true).idx
      ≤ (calculate_severity_level 20 (Indicators.mk true true false false) "moderate" true).idx :=
  ⟨by constructor <;> simp, c8_severity_boost_monotone.2.2 20 "moderate" true
    (Indicators.mk true false false false) (Indicators.mk true true false false)
    (by constructor <;> simp)⟩

/-- C5 counterexample: in the BINARY module the percent change divides
by `max(oldest, 1)`, not `max(newest, 1)`, so the history [20, 20, 5]
(oldest first) yields 75 percent, not the 300 percent the claim asserts
for either module. -/
theorem c5_counterexample :
    change_pct_b [20, 20, 5] = 75 ∧ (75 : ℚ) ≠ 300 := by
  constructor
  · norm_num [change_pct_b, List.getLastD]
  · norm_num

/-- C5 amended: in the five-level module the percent change is
`(oldest - newest) / max(newest, 1) * 100` whenever the newest score is
positive (and 0 otherwise), and [20, 20, 5] gives 300 percent, hence
SignificantImprovement; the binary module instead divides by
`max(oldest, 1)` (guarded on the oldest score), giving 75 percent for
[20, 20, 5], which still buckets as SignificantImprovement there. -/
theorem c5_change_pct_formula :
    (∀ scores : List ℤ, 3 ≤ scores.length → 0 < scores.getLastD 0 →
      change_pct_f scores = ((scores.headI - scores.getLastD 0 : ℤ) : ℚ)
        / ((max (scores.getLastD 0) 1 : ℤ) : ℚ) * 100) ∧
    (∀ scores : List ℤ, 3 ≤ scores.length → 0 < scores.headI →
      change_pct_b scores = ((scores.headI - scores.getLastD 0 : ℤ) : ℚ)
        / ((max scores.headI 1 : ℤ) : ℚ) * 100) ∧
    change_pct_f [20, 20, 5] = 300 ∧
    trend_f [20, 20, 5] = ImprovementTrend.significant_improvement ∧
    change_pct_b [20, 20, 5] = 75 ∧
    trend_b [20, 20, 5] = ImprovementTrend.significant_improvement := by
  have hf : change_pct_f [20, 20, 5] = 300 := by
    norm_num [change_pct_f, List.getLastD]
  have hb : change_pct_b [20, 20, 5] = 75 := by
    norm_num [change_pct_b, List.getLastD]
  refine ⟨?_, ?_, hf, ?_, hb, ?_⟩
  · intro scores h3 hpos
    unfold change_pct_f
    dsimp only
    rw [if_pos hpos]
  · intro scores h3 hpos
    unfold change_pct_b
    dsimp only
    rw [if_pos hpos]
  · show trend_bucket_f (change_pct_f [20, 20, 5]) = _
    rw [hf]
    norm_num [trend_bucket_f]
  · show trend_bucket_b (change_pct_b [20, 20, 5]) = _
    rw [hb]
    norm_num [trend_bucket_b]

/-- Witness for C5 at the concrete history of Scenario D. -/
theorem c5_change_pct_formula_witness :
    change_pct_f [20, 20, 5] = ((20 - 5 : ℤ) : ℚ) / ((max 5 1 : ℤ) : ℚ) * 100 := by
  have h := c5_change_pct_formula.1 [20, 20, 5] (by decide) (by decide)
  simpa [List.getLastD] using h

/-- Sum of a constant list. -/
lemma list_sum_const (l : List ℤ) (v : ℤ) (h : ∀ x ∈ l, x = v) :
    l.sum = (l.length : ℤ) * v := by
  induction l with
  | nil => simp
  | cons x xs ih =>
    have hx : x = v := h x (by simp)
    have hxs : ∀ y ∈ xs, y = v := fun y hy => h y (by simp [hy])
    simp [ih hxs, hx]
    ring

/-- Sum of squares of a constant list. -/
lemma list_sum_sq_const (l : List ℤ) (v : ℤ) (h : ∀ x ∈ l, x = v) :
    (l.map (fun x => x * x)).sum = (l.length : ℤ) * (v * v) := by
  induction l with
  | nil => simp
  | cons x xs ih =>
    have hx : x = v := h x (by simp)
    have hxs : ∀ y ∈ xs, y = v := fun y hy => h y (by simp [hy])
    simp [ih hxs, hx]
    ring

/-- The variance numerator of a constant list vanishes. -/
lemma varianceNum_const (l : List ℤ) (v : ℤ) (h : ∀ x ∈ l, x = v) :
    varianceNum l = 0 := by
  unfold varianceNum
  rw [list_sum_const l v h, list_sum_sq_const l v h]
  ring

/-- The last element (with any default) of a nonempty constant list. -/
lemma getLastD_const (l : List ℤ) (v : ℤ) (h : ∀ x ∈ l, x = v) (hne : l ≠ []) :
    ∀ d : ℤ, l.getLastD d = v := by
  induction l with
  | nil => simp at hne
  | cons x xs ih =>
    intro d
    have hx : x = v := h x (by simp)
    have hxs : ∀ y ∈ xs, y = v := fun y hy => h y (by simp [hy])
    rcases eq_or_ne xs [] with hnil | hnil
    · subst hnil
      simpa using hx
    · rw [List.getLastD_cons]
      exact ih hxs hnil x

/-- Both modules' percent change vanishes on a constant series. -/
lemma change_pct_const (l : List ℤ) (v : ℤ) (h : ∀ x ∈ l, x = v) (hne : l ≠ []) :
    change_pct_b l = 0 ∧ change_pct_f l = 0 := by
  have hhead : l.headI = v := by
    cases l with
    | nil => simp at hne
    | cons x xs => exact h x (by simp)
  have hlast : l.getLastD 0 = v := getLastD_const l v h hne 0
  constructor
  · unfold change_pct_b
    dsimp only
    rw [hhead, hlast]
    split_ifs <;> simp
  · unfold change_pct_f
    dsimp only
    rw [hhead, hlast]
    split_ifs <;> simp

/-- C6 amended: on a constant score series of 3 or more points both
modules return trend Stable, but the confidence is 0.95, not the 0.5
claimed: `np.corrcoef` does not raise on the zero-variance series (so
the except-fallback returning 0.5 is never reached) - it returns NaN
with a warning, and Python's `min(0.95, NaN + 0.1)` keeps its first
argument 0.95. -/
theorem c6_constant_series (scores : List ℤ) (v : ℤ) (h3 : 3 ≤ scores.length)
    (hconst : ∀ x ∈ scores, x = v) :
    trend_b scores = ImprovementTrend.stable ∧
    trend_f scores = ImprovementTrend.stable ∧
    corr_is_nan scores = true ∧
    (∀ absr : ℚ, confidence_from (corr_is_nan scores) absr = 0.95) := by
  have hne : scores ≠ [] := by
    intro hcontra
    rw [hcontra] at h3
    simp at h3
  obtain ⟨hb, hf⟩ := change_pct_const scores v hconst hne
  have hnan : corr_is_nan scores = true := by
    unfold corr_is_nan
    rw [varianceNum_const scores v hconst]
    rfl
  refine ⟨?_, ?_, hnan, ?_⟩
  · show trend_bucket_b (change_pct_b scores) = _
    rw [hb]
    norm_num [trend_bucket_b]
  · show trend_bucket_f (change_pct_f scores) = _
    rw [hf]
    norm_num [trend_bucket_f]
  · intro absr
    rw [hnan]
    rfl

/-- Witness for C6 on the constant series [7, 7, 7]. -/
theorem c6_constant_series_witness :
    trend_b [7, 7, 7] = ImprovementTrend.stable ∧
    confidence_from (corr_is_nan [7, 7, 7]) (1/3) = 0.95 :=
  ⟨(c6_constant_series [7, 7, 7] 7 (by decide) (by decide)).1,
   (c6_constant_series [7, 7, 7] 7 (by decide) (by decide)).2.2.2 (1/3)⟩

/-- C6 counterexample: on the constant series [5, 5, 5] the trend is
Stable as claimed, but the confidence is 0.95, not 0.5. -/
theorem c6_counterexample :
    trend_b [5, 5, 5] = ImprovementTrend.stable ∧
    trend_f [5, 5, 5] = ImprovementTrend.stable ∧
    corr_is_nan [5, 5, 5] = true ∧
    confidence_from (corr_is_nan [5, 5, 5]) 0 = 0.95 ∧
    (0.95 : ℚ) ≠ 0.5 := by
  have hb : change_pct_b [5, 5, 5] = 0 := by
    norm_num [change_pct_b, List.getLastD]
  have hf : change_pct_f [5, 5, 5] = 0 := by
    norm_num [change_pct_f, List.getLastD]
  have hnan : corr_is_nan [5, 5, 5] = true := by decide
  refine ⟨?_, ?_, hnan, ?_, by norm_num⟩
  · show trend_bucket_b (change_pct_b [5, 5, 5]) = _
    rw [hb]
    norm_num [trend_bucket_b]
  · show trend_bucket_f (change_pct_f [5, 5, 5]) = _
    rw [hf]
    norm_num [trend_bucket_f]
  · rw [hnan]
    rfl

/-- Mapping a function over a list maps its defaulted last element. -/
lemma getLastD_map (f : ℤ → ℤ) (l : List ℤ) (d : ℤ) :
    (l.map f).getLastD (f d) = f (l.getLastD d) := by
  induction l generalizing d with
  | nil => simp
  | cons x xs ih =>
    simp only [List.map_cons, List.getLastD_cons]
    exact ih x

/-- The mirrored series keeps the first value and reflects the last. -/
lemma mirror_head_last (x : ℤ) (xs : List ℤ) :
    (mirrorSeries (x :: xs)).headI = x ∧
    (mirrorSeries (x :: xs)).getLastD 0 = 2 * x - (x :: xs).getLastD 0 := by
  constructor
  · simp [mirrorSeries]
    ring
  · unfold mirrorSeries
    simp only [List.headI_cons, List.map_cons, List.getLastD_cons]
    have h := getLastD_map (fun y => 2 * x - y) xs x
    simp only at h
    rw [h]

/-- Mirroring negates the binary module's percent change. -/
lemma change_pct_b_mirror (x : ℤ) (xs : List ℤ) :
    change_pct_b (mirrorSeries (x :: xs)) = - change_pct_b (x :: xs) := by
  obtain ⟨hh, hl⟩ := mirror_head_last x xs
  unfold change_pct_b
  dsimp only
  rw [hh, hl]
  simp only [List.headI_cons]
  split_ifs with h
  · push_cast
    ring
  · simp

/-- Negating the percent change mirrors the binary trend bucket. -/
lemma trend_bucket_b_neg (p : ℚ) :
    trend_bucket_b (-p) = mirrorBucket (trend_bucket_b p) := by
  unfold trend_bucket_b
  rw [abs_neg]
  split_ifs with h1 h2 h3 h4 h5 h6 h7 h8 h9 h10 h11 <;>
    simp_all [mirrorBucket, abs_lt] <;> linarith

/-- C7 counterexample: in the five-level module the mirror of the
improving series [10, 10, 8] (classified ModerateImprovement) is
[10, 10, 12], which classifies as MildDeterioration, not the mirrored
ModerateDeterioration - the percent change divides by the newest value,
which differs between a series and its mirror. -/
theorem c7_counterexample :
    mirrorSeries [10, 10, 8] = [10, 10, 12] ∧
    trend_f [10, 10, 8] = ImprovementTrend.moderate_improvement ∧
    trend_f [10, 10, 12] = ImprovementTrend.mild_deterioration ∧
    ImprovementTrend.mild_deterioration ≠ ImprovementTrend.moderate_deterioration := by
  have h1 : change_pct_f [10, 10, 8] = 25 := by
    norm_num [change_pct_f, List.getLastD]
  have h2 : change_pct_f [10, 10, 12] = -50/3 := by
    norm_num [change_pct_f, List.getLastD]
  refine ⟨by decide, ?_, ?_, by decide⟩
  · show trend_bucket_f (change_pct_f [10, 10, 8]) = _
    rw [h1]
    norm_num [trend_bucket_f]
  · show trend_bucket_f (change_pct_f [10, 10, 12]) = _
    rw [h2]
    norm_num [trend_bucket_f, abs_lt]

/-- C7 amended: the mirror symmetry does hold in the BINARY module: for
every series of 3 or more points, the reverse-sign mirror (same start,
increments negated) classifies as exactly the mirrored bucket, because
there the percent change divides by the oldest value, which mirroring
preserves.  In the five-level module the symmetry fails (see the
counterexample). -/
theorem c7_binary_mirror_symmetry (scores : List ℤ) (h3 : 3 ≤ scores.length) :
    trend_b (mirrorSeries scores) = mirrorBucket (trend_b scores) := by
  cases scores with
  | nil => simp at h3
  | cons x xs =>
    show trend_bucket_b (change_pct_b (mirrorSeries (x :: xs)))
      = mirrorBucket (trend_bucket_b (change_pct_b (x :: xs)))
    rw [change_pct_b_mirror, trend_bucket_b_neg]

/-- Witness for C7 on the concrete improving series [20, 20, 5]. -/
theorem c7_binary_mirror_symmetry_witness :
    trend_b (mirrorSeries [20, 20, 5]) = mirrorBucket (trend_b [20, 20, 5]) :=
  c7_binary_mirror_symmetry [20, 20, 5] (by decide)

/-- The mean of a nonempty constant list is the constant. -/
lemma listMeanQ_const (l : List ℤ) (v : ℤ) (h : ∀ x ∈ l, x = v) (hne : l ≠ []) :
    listMeanQ l = (v : ℚ) := by
  have hlen : (0 : ℚ) < (l.length : ℚ) := by
    have : 0 < l.length := List.length_pos.mpr hne
    exact_mod_cast this
  unfold listMeanQ
  rw [list_sum_const l v h]
  push_cast
  field_simp

/-- The sum of squared deviations of a constant list vanishes. -/
lemma sumSqDev_const (l : List ℤ) (v : ℤ) (h : ∀ x ∈ l, x = v) (hne : l ≠ []) :
    sumSqDev l = 0 := by
  unfold sumSqDev
  apply List.sum_eq_zero
  intro q hq
  obtain ⟨x, hx, rfl⟩ := List.mem_map.mp hq
  rw [h x hx, listMeanQ_const l v h hne]
  ring

/-- C9 counterexample: for the all-zero history [0, 0, 0] the recent
window has standard deviation 0 (witnessed by the side conditions), yet
the consistency score is 0.5, not 1: the mean-positive guard replaces
the coefficient of variation by 1 when the mean is 0. -/
theorem c9_counterexample :
    (0 : ℚ) ≤ 0 ∧
    (0 : ℚ) ^ 2 * ((([0, 0, 0] : List ℤ).take 5).length : ℚ)
      = sumSqDev (([0, 0, 0] : List ℤ).take 5) ∧
    consistency_score [0, 0, 0] 0 = 1/2 ∧
    (1/2 : ℚ) ≠ 1 := by
  refine ⟨le_refl 0, ?_, ?_, by norm_num⟩
  · norm_num [sumSqDev, listMeanQ]
  · norm_num [consistency_score, listMeanQ]

/-- C9 amended: on a history of 3 or more records whose extracted totals
all equal `v` (so the recent window's standard deviation is 0), the
consistency score is 1 when `v` is positive; when `v` is not positive
(in particular the all-zero history) the mean-positive guard sets the
coefficient of variation to 1 and the consistency score is 0.5.  The
rounded value returned by the analysis is the same.  `std` is the
standard deviation of the recent window, characterised exactly by the
two side conditions. -/
theorem c9_consistency_constant (scores : List ℤ) (v : ℤ) (std : ℚ)
    (h3 : 3 ≤ scores.length) (hconst : ∀ x ∈ scores, x = v)
    (hstd0 : 0 ≤ std)
    (hstd : std ^ 2 * ((scores.take 5).length : ℚ) = sumSqDev (scores.take 5)) :
    consistency_score scores std = (if 0 < v then 1 else 1/2) ∧
    pyRound2 (consistency_score scores std) = (if 0 < v then 1 else 1/2) := by
  have hrec_const : ∀ x ∈ scores.take 5, x = v :=
    fun x hx => hconst x (List.mem_of_mem_take hx)
  have hrec_ne : scores.take 5 ≠ [] := by
    have : 0 < (scores.take 5).length := by
      rw [List.length_take]
      omega
    exact List.length_pos.mp this
  have hlen_pos : (0 : ℚ) < ((scores.take 5).length : ℚ) := by
    have : 0 < (scores.take 5).length := List.length_pos.mpr hrec_ne
    exact_mod_cast this
  have hdev : sumSqDev (scores.take 5) = 0 := sumSqDev_const _ v hrec_const hrec_ne
  have hstd_zero : std = 0 := by
    rw [hdev] at hstd
    have hsq : std ^ 2 = 0 := by
      rcases mul_eq_zero.mp hstd with h | h
      · exact h
      · exact absurd h (ne_of_gt hlen_pos)
    exact pow_eq_zero_iff (n := 2) (by norm_num) |>.mp hsq
  have hmean : listMeanQ (scores.take 5) = (v : ℚ) :=
    listMeanQ_const _ v hrec_const hrec_ne
  have hcs : consistency_score scores std = (if 0 < v then 1 else 1/2) := by
    unfold consistency_score
    rw [if_pos h3]
    dsimp only
    rw [hmean, hstd_zero]
    by_cases hv : (0 : ℚ) < (v : ℚ)
    · have hv' : 0 < v := by exact_mod_cast hv
      rw [if_pos hv, if_pos hv']
      norm_num
    · have hv' : ¬ 0 < v := by
        intro hcontra
        exact hv (by exact_mod_cast hcontra)
      rw [if_neg hv, if_neg hv']
      norm_num
  refine ⟨hcs, ?_⟩
  rw [hcs]
  by_cases hv : 0 < v
  · rw [if_pos hv]
    norm_num [pyRound2, roundHalfEven]
  · rw [if_neg hv]
    norm_num [pyRound2, roundHalfEven]

/-- Witness for C9 on the constant positive history [3, 3, 3]. -/
theorem c9_consistency_constant_witness :
    consistency_score [3, 3, 3] 0 = 1 ∧
    pyRound2 (consistency_score [3, 3, 3] 0) = 1 := by
  have h := c9_consistency_constant [3, 3, 3] 3 0 (by decide) (by decide)
    (le_refl 0) (by norm_num [sumSqDev, listMeanQ])
  simpa using h

/-- Any starting value bounds the maximum fold of a list from below. -/
lemma le_foldr_max (a : ℤ) (l : List ℤ) : a ≤ l.foldr max a := by
  induction l with
  | nil => simp
  | cons x xs ih =>
    simp only [List.foldr]
    exact le_trans ih (le_max_right x _)

/-- C10: for every extracted score series (2 or more records) the
improvement percentage is nonnegative, because the historical maximum
ranges over all scores including the latest one; consequently the
risk-factor branch guarded by `improvement_percentage < -10` and the
emergency branch guarded by the rounded `improvement_percentage < -15`
can never fire. -/
theorem c10_improvement_pct_nonneg (scores : List ℤ) (h2 : 2 ≤ scores.length) :
    0 ≤ improvement_percentage scores ∧
    ¬ improvement_percentage scores < -10 ∧
    ¬ pyRound1 (improvement_percentage scores) < -15 := by
  have h0 : 0 ≤ improvement_percentage scores := by
    unfold improvement_percentage
    dsimp only
    split_ifs with h
    · have hle : scores.headI ≤ scores.foldr max scores.headI :=
        le_foldr_max _ _
      have hnum : (0 : ℚ) ≤ ((scores.foldr max scores.headI - scores.headI : ℤ) : ℚ) := by
        exact_mod_cast sub_nonneg.mpr hle
      have hden : (0 : ℚ) ≤ ((scores.foldr max scores.headI : ℤ) : ℚ) := by
        exact_mod_cast le_of_lt h
      exact mul_nonneg (div_nonneg hnum hden) (by norm_num)
    · exact le_refl 0
  have hr : 0 ≤ pyRound1 (improvement_percentage scores) := by
    unfold pyRound1
    have hz := roundHalfEven_nonneg (10 * improvement_percentage scores) (by linarith)
    have hzq : (0 : ℚ) ≤ (roundHalfEven (10 * improvement_percentage scores) : ℚ) := by
      exact_mod_cast hz
    linarith
  exact ⟨h0, by intro hlt; linarith, by intro hlt; linarith⟩

/-- Witness for C10 on the two-record history [5, 10]. -/
theorem c10_improvement_pct_nonneg_witness :
    0 ≤ improvement_percentage [5, 10] ∧
    ¬ improvement_percentage [5, 10] < -10 ∧
    ¬ pyRound1 (improvement_percentage [5, 10]) < -15 :=
  c10_improvement_pct_nonneg [5, 10] (by decide)

end MentalAbby
